import Mathlib

/-!
Verification development for the Healthy Habit Tracker routes module
(`routes.py`).

The module is shallowly embedded: each Python helper that the
specification talks about becomes a Lean definition over explicit data.

Modelling conventions:

* Database rows returned by `SELECT *` are Python tuples indexed by
  position; they are embedded as Lean structures whose field order
  matches the column order implied by the code's tuple indices
  (id column first, then the columns of the corresponding `INSERT`).
* Numeric column values (durations, ratings, intensities, goals) are
  embedded as rationals `ℚ`; Python's float division in the average
  computations is exact division in `ℚ`.
* Python's `f"{x:.2f}"` formatting is embedded by `fmt2`, which rounds
  to the nearest hundredth and prints two decimals, and plain `f"{x}"`
  interpolation of a raw numeric value by `fmtQ`.
* Python's string helpers are embedded character-wise: `str.strip()`
  by `pyStrip`, `str.lower()` by `pyLower`, and `int(...)` parsing by
  `pyParseInt` (optional sign followed by decimal digits; Python
  additionally tolerates surrounding whitespace and underscores,
  which no claim exercises).
* The SQL statements are embedded by list operations implementing the
  statement's semantics: `WHERE user_detail_id = %s` is a filter,
  `ORDER BY` is a sort, `LIMIT` is a take, `ON CONFLICT ... DO UPDATE`
  is replace-or-append, `COALESCE(x, 0)` is `Option.getD 0`.
* A failing query (caught `psycopg2.Error`) is represented by a
  `dbError` flag on the read accessors, which makes them return `[]`
  exactly as the `except` branches do.
-/

/-- Two-decimal rendering of a rational, embedding Python's
`f"{x:.2f}"` format specifier (rounding to the nearest hundredth). -/
def fmt2 (q : ℚ) : String :=
  let n : ℤ := round (q * 100)
  let sign := if n < 0 then "-" else ""
  let m := n.natAbs
  sign ++ toString (m / 100) ++ "." ++ (if m % 100 < 10 then "0" else "") ++ toString (m % 100)

/-- Raw rendering of a rational value, embedding Python's `f"{x}"`
interpolation of a numeric database value. -/
def fmtQ (q : ℚ) : String :=
  if q.den = 1 then toString q.num else toString q.num ++ "/" ++ toString q.den

/-- Python's `str.strip()`: drop whitespace from both ends. -/
def pyStrip (s : String) : String :=
  ⟨((s.data.dropWhile Char.isWhitespace).reverse.dropWhile Char.isWhitespace).reverse⟩

/-- Python's `str.lower()` (ASCII case folding). -/
def pyLower (s : String) : String :=
  ⟨s.data.map Char.toLower⟩

/-- Decimal value of a digit list (`none` if a non-digit occurs). -/
def digitsVal : List Char → ℕ → Option ℕ
  | [], acc => some acc
  | c :: cs, acc =>
    if c.isDigit then digitsVal cs (acc * 10 + (c.toNat - 48)) else none

/-- Python's `int(str)`: an optional sign followed by at least one
decimal digit, `none` (a `ValueError`) otherwise. -/
def pyParseInt (s : String) : Option ℤ :=
  match s.data with
  | [] => none
  | '-' :: c :: cs => (digitsVal (c :: cs) 0).map (fun n => -(n : ℤ))
  | '+' :: c :: cs => (digitsVal (c :: cs) 0).map (fun n => (n : ℤ))
  | c :: cs => if c.isDigit then (digitsVal (c :: cs) 0).map (fun n => (n : ℤ)) else none

/-- The sentinel tip returned when there is no data to analyse. -/
def notEnough : String := "Not enough data yet..."

/-- A row of `habits.sleep` as returned by `SELECT *`:
(sleep_id, sleep_duration, sleep_date, sleep_log, sleep_rating,
user_detail_id).  The code reads index 1 (duration) and index 4
(rating). -/
structure SleepRow where
  sleep_id : ℕ
  sleep_duration : ℚ
  sleep_date : ℤ
  sleep_log : String
  sleep_rating : ℚ
  user_detail_id : ℕ
deriving DecidableEq

/-- A row of `habits.diet` as returned by `SELECT *`:
(diet_id, diet_name, diet_date, diet_log, diet_rating, user_detail_id).
The code reads index 4 (rating). -/
structure DietRow where
  diet_id : ℕ
  diet_name : String
  diet_date : ℤ
  diet_log : String
  diet_rating : ℚ
  user_detail_id : ℕ
deriving DecidableEq

/-- A row of `habits.workout` as returned by `SELECT *`:
(workout_id, workout_name, workout_date, workout_duration,
workout_intensity, workout_type, workout_log, workout_rating,
user_detail_id).  The code reads index 4 (intensity). -/
structure WorkoutRow where
  workout_id : ℕ
  workout_name : String
  workout_date : ℤ
  workout_duration : ℚ
  workout_intensity : ℚ
  workout_type : String
  workout_log : String
  workout_rating : ℚ
  user_detail_id : ℕ
deriving DecidableEq

/-- A row of `habits.goals` as returned by `SELECT *`:
(user_detail_id, sleep_len_goal, better_sleep, intensity, diet).
The tip functions read index 1 (sleep length goal), index 2 (sleep
quality goal), index 3 (intensity goal) and index 4 (diet goal). -/
structure GoalsRow where
  user_detail_id : ℕ
  sleep_len_goal : ℚ
  better_sleep : ℚ
  intensity : ℚ
  diet : ℚ
deriving DecidableEq

/-- Arithmetic mean of the diet ratings, embedding the accumulation
loop of `diet_tips` (`diet_avg / diets`). -/
def dietAvgOf (l : List DietRow) : ℚ :=
  (l.map DietRow.diet_rating).sum / (l.length : ℚ)

/-- Arithmetic mean of the workout intensities, embedding the
accumulation loop of `workout_tips` (`work_avg / works`). -/
def workoutAvgOf (l : List WorkoutRow) : ℚ :=
  (l.map WorkoutRow.workout_intensity).sum / (l.length : ℚ)

/-- Arithmetic mean of the sleep durations, embedding the accumulation
loop of `sleep_tips` (`sleep_len_avg / sleeps`). -/
def sleepLenAvgOf (l : List SleepRow) : ℚ :=
  (l.map SleepRow.sleep_duration).sum / (l.length : ℚ)

/-- Arithmetic mean of the sleep quality ratings, embedding the
accumulation loop of `sleep_tips` (`sleep_qual_avg / sleeps`). -/
def sleepQualAvgOf (l : List SleepRow) : ℚ :=
  (l.map SleepRow.sleep_rating).sum / (l.length : ℚ)

/-- Diet tip: average meets or passes goal. -/
def dietAvgMeetsMsg (a : ℚ) : String :=
  "Your Average (" ++ fmt2 a ++ ") currently meets or is passing your goal!"

/-- Diet tip: average below goal. -/
def dietAvgBelowMsg (a : ℚ) : String :=
  "Your Average (" ++ fmt2 a ++ ") is currently below your goal!"

/-- Diet tip: newest entry at or above goal. -/
def dietNewestAboveMsg (n : ℚ) : String :=
  "Your newest (" ++ fmtQ n ++ ") is above your goal! Keep it up!"

/-- Diet tip: newest entry below goal. -/
def dietNewestBelowMsg (n : ℚ) : String :=
  "Your newest (" ++ fmtQ n ++ ") is below your goal! Don\x27t let this become a trend."

/-- Workout tip: average intensity meets or passes goal. -/
def workoutAvgMeetsMsg (a : ℚ) : String :=
  "Your Average intensity (" ++ fmt2 a ++ ") currently meets or is passing your goal!"

/-- Workout tip: average intensity below goal. -/
def workoutAvgBelowMsg (a : ℚ) : String :=
  "Your Average intensity (" ++ fmt2 a ++ ") is currently below your goal!"

/-- Workout coaching remark appended when the average is below goal. -/
def workoutWeightsMsg : String :=
  "If you\x27re using weights, try increasing the weight or amount of reps."

/-- Workout tip: newest intensity meets or is above goal. -/
def workoutNewestMeetsMsg (n : ℚ) : String :=
  "Your most recent intensity (" ++ fmtQ n ++ ") meets or is above your goal!"

/-- Workout overtraining caution, appended when the newest intensity
meets the goal and is at least 8. -/
def workoutCautionMsg : String :=
  "Try not to go too intense too often; it\x27s okay to take a break occasionally."

/-- Workout tip: newest intensity below goal. -/
def workoutNewestBelowMsg (n : ℚ) : String :=
  "Your newest (" ++ fmtQ n ++ ") is below your goal!"

/-- Workout coaching remark appended when the newest intensity is
below goal. -/
def workoutBreakMsg : String :=
  "If you\x27re taking a break that\x27s okay, but try to increase the intensity when you\x27re ready."

/-- Sleep tip: average duration meets or passes goal. -/
def sleepLenAvgMeetsMsg (a : ℚ) : String :=
  "Your Average length of sleep (" ++ fmt2 a ++ ") currently meets or is passing your goal!"

/-- Sleep tip: average duration below goal. -/
def sleepLenAvgBelowMsg (a : ℚ) : String :=
  "Your Average length of sleep (" ++ fmt2 a ++ ") is currently below your goal!"

/-- Sleep tip: newest duration at or above goal. -/
def sleepLenNewestAboveMsg (n : ℚ) : String :=
  "Your newest length of sleep (" ++ fmtQ n ++ ") is above your goal! Keep it up!"

/-- Sleep tip: newest duration below goal. -/
def sleepLenNewestBelowMsg (n : ℚ) : String :=
  "Your newest length of sleep (" ++ fmtQ n ++ ") is below your goal! Don\x27t let this become a trend."

/-- Sleep tip: average quality at or above goal (the source string has
no space before the parenthesis). -/
def sleepQualAvgMeetsMsg (a : ℚ) : String :=
  "Your average quality of sleep(" ++ fmt2 a ++ ") is above your goal! Keep it up!"

/-- Sleep tip: average quality below goal. -/
def sleepQualAvgBelowMsg (a : ℚ) : String :=
  "Your average quality of sleep (" ++ fmt2 a ++ ") is currently below your goal!"

/-- Sleep coaching remark appended when the average quality is below
goal. -/
def sleepScreensMsg : String :=
  "For better sleep quality, try not to use any screens for at least an hour before bed."

/-- Sleep tip: newest quality meets or is above goal. -/
def sleepQualNewestMeetsMsg (n : ℚ) : String :=
  "Your most recent sleep (" ++ fmtQ n ++ ") meets or is above your goal!"

/-- Sleep tip: newest quality below goal. -/
def sleepQualNewestBelowMsg (n : ℚ) : String :=
  "Your most recent sleep (" ++ fmtQ n ++ ") is below your goal!"

/-- Embedding of `diet_tips(diet_data, goal_data)`. -/
def diet_tips : List DietRow → List GoalsRow → List String
  | [], _ => [notEnough]
  | _ :: _, [] => [notEnough]
  | d0 :: ds, g0 :: _ =>
    let newest := d0.diet_rating
    let goal := g0.diet
    let diet_avg := dietAvgOf (d0 :: ds)
    (if diet_avg ≥ goal then [dietAvgMeetsMsg diet_avg] else [dietAvgBelowMsg diet_avg]) ++
    (if newest ≥ goal then [dietNewestAboveMsg newest] else [dietNewestBelowMsg newest])

/-- Embedding of `workout_tips(work_data, goal_data)`. -/
def workout_tips : List WorkoutRow → List GoalsRow → List String
  | [], _ => [notEnough]
  | _ :: _, [] => [notEnough]
  | w0 :: ws, g0 :: _ =>
    let newest := w0.workout_intensity
    let goal := g0.intensity
    let work_avg := workoutAvgOf (w0 :: ws)
    (if work_avg ≥ goal then [workoutAvgMeetsMsg work_avg]
     else [workoutAvgBelowMsg work_avg, workoutWeightsMsg]) ++
    (if newest ≥ goal then
       (if newest ≥ 8 then [workoutNewestMeetsMsg newest, workoutCautionMsg]
        else [workoutNewestMeetsMsg newest])
     else [workoutNewestBelowMsg newest, workoutBreakMsg])

/-- Embedding of `sleep_tips(sleep_data, goal_data)`. -/
def sleep_tips : List SleepRow → List GoalsRow → List String
  | [], _ => [notEnough]
  | _ :: _, [] => [notEnough]
  | s0 :: ss, g0 :: _ =>
    let newest_len := s0.sleep_duration
    let newest_qual := s0.sleep_rating
    let goal_len := g0.sleep_len_goal
    let goal_qual := g0.better_sleep
    let sleep_len_avg := sleepLenAvgOf (s0 :: ss)
    let sleep_qual_avg := sleepQualAvgOf (s0 :: ss)
    (if sleep_len_avg ≥ goal_len then [sleepLenAvgMeetsMsg sleep_len_avg]
     else [sleepLenAvgBelowMsg sleep_len_avg]) ++
    (if newest_len ≥ goal_len then [sleepLenNewestAboveMsg newest_len]
     else [sleepLenNewestBelowMsg newest_len]) ++
    (if sleep_qual_avg ≥ goal_qual then [sleepQualAvgMeetsMsg sleep_qual_avg]
     else [sleepQualAvgBelowMsg sleep_qual_avg, sleepScreensMsg]) ++
    (if newest_qual ≥ goal_qual then [sleepQualNewestMeetsMsg newest_qual]
     else [sleepQualNewestBelowMsg newest_qual])

/-- Embedding of the `goals` POST handler's SQL
(`INSERT INTO habits.goals ... ON CONFLICT (user_detail_id) DO UPDATE
SET ...`): if a row for the user exists it is overwritten with the
submitted values, otherwise a new row is appended. -/
def upsert_goal (table : List GoalsRow) (uid : ℕ) (sl bs it di : ℚ) : List GoalsRow :=
  if table.any (fun r => r.user_detail_id == uid) then
    table.map (fun r => if r.user_detail_id == uid then ⟨uid, sl, bs, it, di⟩ else r)
  else table ++ [⟨uid, sl, bs, it, di⟩]

/-- A row of `habits.user_detail`:
(user_detail_id, user_detail_username, user_detail_password). -/
structure UserRow where
  user_detail_id : ℕ
  user_detail_username : String
  user_detail_password : String
deriving DecidableEq

/-- Embedding of the `register` POST handler: if a row with the
submitted username exists, the table is unchanged and the error
message `"Username taken!"` is reported; otherwise one new row with
the (already hashed) password is appended and no error is reported. -/
def register (table : List UserRow) (newId : ℕ) (username password_hash : String) :
    List UserRow × Option String :=
  if table.any (fun r => r.user_detail_username == username) then
    (table, some "Username taken!")
  else (table ++ [⟨newId, username, password_hash⟩], none)

/-- A row of `habits.feedback`:
(feedback_id, user_detail_id, feedback_type, feedback_page,
feedback_message, feedback_rating, contact_email, created_at).
`feedback_rating` and `contact_email` are nullable. -/
structure FeedbackRow where
  feedback_id : ℕ
  user_detail_id : ℕ
  feedback_type : String
  feedback_page : String
  feedback_message : String
  feedback_rating : Option ℤ
  contact_email : Option String
  created_at : ℤ
deriving DecidableEq

/-- Embedding of the "safe rating coercion" block of the `feedback`
POST handler: `int(rating) if rating else None`, out-of-range values
and parse failures coerced to `None`. -/
def coerce_rating (rating : Option String) : Option ℤ :=
  match rating with
  | none => none
  | some s =>
    if s = "" then none
    else
      match pyParseInt s with
      | none => none
      | some v => if 1 ≤ v ∧ v ≤ 5 then some v else none

/-- Embedding of the `feedback` POST handler: strip/lowercase the
form fields as the code does, coerce the rating, and insert exactly
one row (`feedback_id` and `created_at` are server-assigned and
passed in as parameters). -/
def submit_feedback (table : List FeedbackRow) (fid uid : ℕ)
    (ftype fpage msg rating email : Option String) (now : ℤ) : List FeedbackRow :=
  let ft := pyLower (pyStrip (ftype.getD ""))
  let fp := pyLower (pyStrip (fpage.getD ""))
  let m := pyStrip (msg.getD "")
  let em := pyStrip (email.getD "")
  table ++ [⟨fid, uid, ft, fp, m, coerce_rating rating,
             if em = "" then none else some em, now⟩]

/-- The 7-tuple returned by the SELECT in `_get_feedback_for_user`:
(feedback_id, feedback_type, feedback_page, feedback_message,
COALESCE(feedback_rating, 0), contact_email, created_at). -/
structure FeedbackView where
  feedback_id : ℕ
  feedback_type : String
  feedback_page : String
  feedback_message : String
  feedback_rating : ℤ
  contact_email : Option String
  created_at : ℤ
deriving DecidableEq

/-- Column selection of `_get_feedback_for_user`'s SELECT applied to
one stored row; `COALESCE(feedback_rating, 0)` is `Option.getD 0`. -/
def feedbackView (r : FeedbackRow) : FeedbackView :=
  ⟨r.feedback_id, r.feedback_type, r.feedback_page, r.feedback_message,
   r.feedback_rating.getD 0, r.contact_email, r.created_at⟩

/-- Embedding of `_get_feedback_for_user(limit)`: the user's rows
ordered by `created_at` descending, limited, with the rating column
coalesced. -/
def get_feedback_for_user (table : List FeedbackRow) (uid : ℕ) (limit : ℕ) :
    List FeedbackView :=
  ((List.insertionSort (fun a b : FeedbackRow => b.created_at ≤ a.created_at)
      (table.filter (fun r => r.user_detail_id == uid))).map feedbackView).take limit

/-- A generic row of one of the per-domain habit tables, for the
shared accessors `get_data` / `get_chart_data`: the user scope
column, the domain's date column, and the remaining columns as an
opaque payload of which `get_chart_data`'s value column is a
projection. -/
structure TableRow (α : Type) where
  user_detail_id : ℕ
  date : ℤ
  payload : α

/-- Embedding of `get_data(table_name)`: the user's rows ordered by
date descending; `dbError` represents a caught `psycopg2.Error`, in
which case the function returns `[]`. -/
def get_data {α : Type} (table : List (TableRow α)) (uid : ℕ) (dbError : Bool) :
    List (TableRow α) :=
  if dbError then []
  else
    List.insertionSort (fun a b : TableRow α => b.date ≤ a.date)
      (table.filter (fun r => r.user_detail_id == uid))

/-- Embedding of `get_chart_data(table_name, date_column,
value_column)`: (date, value) pairs for the user's rows ordered by
date ascending; `[]` on a caught database error. -/
def get_chart_data {α : Type} (table : List (TableRow α)) (value : α → ℚ) (uid : ℕ)
    (dbError : Bool) : List (ℤ × ℚ) :=
  if dbError then []
  else
    (List.insertionSort (fun a b : TableRow α => a.date ≤ b.date)
      (table.filter (fun r => r.user_detail_id == uid))).map
        (fun r => (r.date, value r.payload))


/-- Two string concatenations are different when their literal head
parts differ at some index. -/
theorem strNe (p₁ m₁ s₁ p₂ m₂ s₂ : String) (i : ℕ)
    (hip : i < p₁.data.length) (hiq : i < p₂.data.length)
    (hne : p₁.data[i]? ≠ p₂.data[i]?) :
    p₁ ++ m₁ ++ s₁ ≠ p₂ ++ m₂ ++ s₂ := by
  intro h
  apply hne
  have hd : p₁.data ++ (m₁.data ++ s₁.data) = p₂.data ++ (m₂.data ++ s₂.data) := by
    have hc := congrArg String.data h
    simpa [String.append_assoc, String.data_append] using hc
  calc p₁.data[i]?
      = (p₁.data ++ (m₁.data ++ s₁.data))[i]? := (List.getElem?_append_left hip).symm
    _ = (p₂.data ++ (m₂.data ++ s₂.data))[i]? := by rw [hd]
    _ = p₂.data[i]? := List.getElem?_append_left hiq

/-- A concatenation headed by `p` differs from a literal `L` when `p`
and `L` differ at some index inside `p`. -/
theorem strNeLit (p m s L : String) (i : ℕ)
    (hip : i < p.data.length) (hiL : i < L.data.length)
    (hne : p.data[i]? ≠ L.data[i]?) :
    p ++ m ++ s ≠ L := by
  intro h
  apply strNe p m s L "" "" i hip hiL hne
  rw [String.append_empty, String.append_empty]
  exact h

/-- Concatenations sharing head and middle but with different literal
tails are different. -/
theorem strNeSuffix (p m a b : String) (hab : a ≠ b) :
    p ++ m ++ a ≠ p ++ m ++ b := by
  intro h
  apply hab
  apply String.ext
  have hd := congrArg String.data h
  simp only [String.append_assoc, String.data_append] at hd
  exact List.append_cancel_left (List.append_cancel_left hd)

/-- The sentinel differs from every interpolated tip message (all of
which start with an uppercase letter different from `N`). -/
theorem notEnough_ne_tip (p m s : String) (hp : 0 < p.data.length)
    (hne : p.data[0]? ≠ notEnough.data[0]?) : notEnough ≠ p ++ m ++ s :=
  (strNeLit p m s notEnough 0 hp (by decide) hne).symm


theorem dAm_ne_dAb (a : ℚ) : dietAvgMeetsMsg a ≠ dietAvgBelowMsg a :=
  strNeSuffix _ _ _ _ (by decide)

theorem dAm_ne_dNa (a n : ℚ) : dietAvgMeetsMsg a ≠ dietNewestAboveMsg n :=
  strNe _ _ _ _ _ _ 5 (by decide) (by decide) (by decide)

theorem dAm_ne_dNb (a n : ℚ) : dietAvgMeetsMsg a ≠ dietNewestBelowMsg n :=
  strNe _ _ _ _ _ _ 5 (by decide) (by decide) (by decide)

theorem dAb_ne_dNa (a n : ℚ) : dietAvgBelowMsg a ≠ dietNewestAboveMsg n :=
  strNe _ _ _ _ _ _ 5 (by decide) (by decide) (by decide)

theorem dAb_ne_dNb (a n : ℚ) : dietAvgBelowMsg a ≠ dietNewestBelowMsg n :=
  strNe _ _ _ _ _ _ 5 (by decide) (by decide) (by decide)

theorem wAm_ne_wAb (a : ℚ) : workoutAvgMeetsMsg a ≠ workoutAvgBelowMsg a :=
  strNeSuffix _ _ _ _ (by decide)

theorem wAm_ne_weights (a : ℚ) : workoutAvgMeetsMsg a ≠ workoutWeightsMsg :=
  strNeLit _ _ _ _ 0 (by decide) (by decide) (by decide)

theorem wAm_ne_wNm (a n : ℚ) : workoutAvgMeetsMsg a ≠ workoutNewestMeetsMsg n :=
  strNe _ _ _ _ _ _ 5 (by decide) (by decide) (by decide)

theorem wAm_ne_caution (a : ℚ) : workoutAvgMeetsMsg a ≠ workoutCautionMsg :=
  strNeLit _ _ _ _ 0 (by decide) (by decide) (by decide)

theorem wAm_ne_wNb (a n : ℚ) : workoutAvgMeetsMsg a ≠ workoutNewestBelowMsg n :=
  strNe _ _ _ _ _ _ 5 (by decide) (by decide) (by decide)

theorem wAm_ne_break (a : ℚ) : workoutAvgMeetsMsg a ≠ workoutBreakMsg :=
  strNeLit _ _ _ _ 0 (by decide) (by decide) (by decide)

theorem wAb_ne_weights (a : ℚ) : workoutAvgBelowMsg a ≠ workoutWeightsMsg :=
  strNeLit _ _ _ _ 0 (by decide) (by decide) (by decide)

theorem wAb_ne_wNm (a n : ℚ) : workoutAvgBelowMsg a ≠ workoutNewestMeetsMsg n :=
  strNe _ _ _ _ _ _ 5 (by decide) (by decide) (by decide)

theorem wAb_ne_caution (a : ℚ) : workoutAvgBelowMsg a ≠ workoutCautionMsg :=
  strNeLit _ _ _ _ 0 (by decide) (by decide) (by decide)

theorem wAb_ne_wNb (a n : ℚ) : workoutAvgBelowMsg a ≠ workoutNewestBelowMsg n :=
  strNe _ _ _ _ _ _ 5 (by decide) (by decide) (by decide)

theorem wAb_ne_break (a : ℚ) : workoutAvgBelowMsg a ≠ workoutBreakMsg :=
  strNeLit _ _ _ _ 0 (by decide) (by decide) (by decide)

theorem wNm_ne_caution (n : ℚ) : workoutNewestMeetsMsg n ≠ workoutCautionMsg :=
  strNeLit _ _ _ _ 0 (by decide) (by decide) (by decide)

theorem wNb_ne_caution (n : ℚ) : workoutNewestBelowMsg n ≠ workoutCautionMsg :=
  strNeLit _ _ _ _ 0 (by decide) (by decide) (by decide)

theorem caution_ne_weights : workoutCautionMsg ≠ workoutWeightsMsg := by decide

theorem caution_ne_break : workoutCautionMsg ≠ workoutBreakMsg := by decide

theorem sLAm_ne_sLAb (a : ℚ) : sleepLenAvgMeetsMsg a ≠ sleepLenAvgBelowMsg a :=
  strNeSuffix _ _ _ _ (by decide)

theorem sLAm_ne_sLNa (a n : ℚ) : sleepLenAvgMeetsMsg a ≠ sleepLenNewestAboveMsg n :=
  strNe _ _ _ _ _ _ 5 (by decide) (by decide) (by decide)

theorem sLAm_ne_sLNb (a n : ℚ) : sleepLenAvgMeetsMsg a ≠ sleepLenNewestBelowMsg n :=
  strNe _ _ _ _ _ _ 5 (by decide) (by decide) (by decide)

theorem sLAb_ne_sLNa (a n : ℚ) : sleepLenAvgBelowMsg a ≠ sleepLenNewestAboveMsg n :=
  strNe _ _ _ _ _ _ 5 (by decide) (by decide) (by decide)

theorem sLAb_ne_sLNb (a n : ℚ) : sleepLenAvgBelowMsg a ≠ sleepLenNewestBelowMsg n :=
  strNe _ _ _ _ _ _ 5 (by decide) (by decide) (by decide)

theorem sLAm_ne_sQAm (a q : ℚ) : sleepLenAvgMeetsMsg a ≠ sleepQualAvgMeetsMsg q :=
  strNe _ _ _ _ _ _ 5 (by decide) (by decide) (by decide)

theorem sLAm_ne_sQAb (a q : ℚ) : sleepLenAvgMeetsMsg a ≠ sleepQualAvgBelowMsg q :=
  strNe _ _ _ _ _ _ 5 (by decide) (by decide) (by decide)

theorem sLAb_ne_sQAm (a q : ℚ) : sleepLenAvgBelowMsg a ≠ sleepQualAvgMeetsMsg q :=
  strNe _ _ _ _ _ _ 5 (by decide) (by decide) (by decide)

theorem sLAb_ne_sQAb (a q : ℚ) : sleepLenAvgBelowMsg a ≠ sleepQualAvgBelowMsg q :=
  strNe _ _ _ _ _ _ 5 (by decide) (by decide) (by decide)

theorem sLAm_ne_screens (a : ℚ) : sleepLenAvgMeetsMsg a ≠ sleepScreensMsg :=
  strNeLit _ _ _ _ 0 (by decide) (by decide) (by decide)

theorem sLAb_ne_screens (a : ℚ) : sleepLenAvgBelowMsg a ≠ sleepScreensMsg :=
  strNeLit _ _ _ _ 0 (by decide) (by decide) (by decide)

theorem sLAm_ne_sQNm (a n : ℚ) : sleepLenAvgMeetsMsg a ≠ sleepQualNewestMeetsMsg n :=
  strNe _ _ _ _ _ _ 5 (by decide) (by decide) (by decide)

theorem sLAm_ne_sQNb (a n : ℚ) : sleepLenAvgMeetsMsg a ≠ sleepQualNewestBelowMsg n :=
  strNe _ _ _ _ _ _ 5 (by decide) (by decide) (by decide)

theorem sLAb_ne_sQNm (a n : ℚ) : sleepLenAvgBelowMsg a ≠ sleepQualNewestMeetsMsg n :=
  strNe _ _ _ _ _ _ 5 (by decide) (by decide) (by decide)

theorem sLAb_ne_sQNb (a n : ℚ) : sleepLenAvgBelowMsg a ≠ sleepQualNewestBelowMsg n :=
  strNe _ _ _ _ _ _ 5 (by decide) (by decide) (by decide)

theorem sQAm_ne_sQAb (a b : ℚ) : sleepQualAvgMeetsMsg a ≠ sleepQualAvgBelowMsg b :=
  strNe _ _ _ _ _ _ 29 (by decide) (by decide) (by decide)

theorem sQAm_ne_sLAm (q a : ℚ) : sleepQualAvgMeetsMsg q ≠ sleepLenAvgMeetsMsg a :=
  strNe _ _ _ _ _ _ 5 (by decide) (by decide) (by decide)

theorem sQAm_ne_sLAb (q a : ℚ) : sleepQualAvgMeetsMsg q ≠ sleepLenAvgBelowMsg a :=
  strNe _ _ _ _ _ _ 5 (by decide) (by decide) (by decide)

theorem sQAb_ne_sLAm (q a : ℚ) : sleepQualAvgBelowMsg q ≠ sleepLenAvgMeetsMsg a :=
  strNe _ _ _ _ _ _ 5 (by decide) (by decide) (by decide)

theorem sQAb_ne_sLAb (q a : ℚ) : sleepQualAvgBelowMsg q ≠ sleepLenAvgBelowMsg a :=
  strNe _ _ _ _ _ _ 5 (by decide) (by decide) (by decide)

theorem sQAm_ne_sLNa (q n : ℚ) : sleepQualAvgMeetsMsg q ≠ sleepLenNewestAboveMsg n :=
  strNe _ _ _ _ _ _ 5 (by decide) (by decide) (by decide)

theorem sQAm_ne_sLNb (q n : ℚ) : sleepQualAvgMeetsMsg q ≠ sleepLenNewestBelowMsg n :=
  strNe _ _ _ _ _ _ 5 (by decide) (by decide) (by decide)

theorem sQAb_ne_sLNa (q n : ℚ) : sleepQualAvgBelowMsg q ≠ sleepLenNewestAboveMsg n :=
  strNe _ _ _ _ _ _ 5 (by decide) (by decide) (by decide)

theorem sQAb_ne_sLNb (q n : ℚ) : sleepQualAvgBelowMsg q ≠ sleepLenNewestBelowMsg n :=
  strNe _ _ _ _ _ _ 5 (by decide) (by decide) (by decide)

theorem sQAm_ne_sQNm (q n : ℚ) : sleepQualAvgMeetsMsg q ≠ sleepQualNewestMeetsMsg n :=
  strNe _ _ _ _ _ _ 5 (by decide) (by decide) (by decide)

theorem sQAm_ne_sQNb (q n : ℚ) : sleepQualAvgMeetsMsg q ≠ sleepQualNewestBelowMsg n :=
  strNe _ _ _ _ _ _ 5 (by decide) (by decide) (by decide)

theorem sQAb_ne_sQNm (q n : ℚ) : sleepQualAvgBelowMsg q ≠ sleepQualNewestMeetsMsg n :=
  strNe _ _ _ _ _ _ 5 (by decide) (by decide) (by decide)

theorem sQAb_ne_sQNb (q n : ℚ) : sleepQualAvgBelowMsg q ≠ sleepQualNewestBelowMsg n :=
  strNe _ _ _ _ _ _ 5 (by decide) (by decide) (by decide)

theorem sQAm_ne_screens (q : ℚ) : sleepQualAvgMeetsMsg q ≠ sleepScreensMsg :=
  strNeLit _ _ _ _ 0 (by decide) (by decide) (by decide)

theorem sQAb_ne_screens (q : ℚ) : sleepQualAvgBelowMsg q ≠ sleepScreensMsg :=
  strNeLit _ _ _ _ 0 (by decide) (by decide) (by decide)

/-- Claim C1: each of the three tip functions returns exactly the
one-element list containing the sentinel `"Not enough data yet..."`
iff the entries list or the goals list is empty, and when both are
non-empty the sentinel never occurs in the output. -/
theorem tips_not_enough_data_iff
    (ds : List DietRow) (ws : List WorkoutRow) (ss : List SleepRow) (gs : List GoalsRow) :
    ((diet_tips ds gs = [notEnough] ↔ ds = [] ∨ gs = []) ∧
      (ds ≠ [] → gs ≠ [] → notEnough ∉ diet_tips ds gs)) ∧
    ((workout_tips ws gs = [notEnough] ↔ ws = [] ∨ gs = []) ∧
      (ws ≠ [] → gs ≠ [] → notEnough ∉ workout_tips ws gs)) ∧
    ((sleep_tips ss gs = [notEnough] ↔ ss = [] ∨ gs = []) ∧
      (ss ≠ [] → gs ≠ [] → notEnough ∉ sleep_tips ss gs)) := by
  refine ⟨⟨?_, ?_⟩, ⟨?_, ?_⟩, ⟨?_, ?_⟩⟩
  · cases ds with
    | nil => simp [diet_tips]
    | cons d ds =>
      cases gs with
      | nil => simp [diet_tips]
      | cons g gs => simp only [diet_tips]; split_ifs <;> simp
  · intro hd hg
    cases ds with
    | nil => exact absurd rfl hd
    | cons d ds =>
      cases gs with
      | nil => exact absurd rfl hg
      | cons g gs =>
        have h1 : notEnough ≠ dietAvgMeetsMsg (dietAvgOf (d :: ds)) :=
          notEnough_ne_tip _ _ _ (by decide) (by decide)
        have h2 : notEnough ≠ dietAvgBelowMsg (dietAvgOf (d :: ds)) :=
          notEnough_ne_tip _ _ _ (by decide) (by decide)
        have h3 : notEnough ≠ dietNewestAboveMsg d.diet_rating :=
          notEnough_ne_tip _ _ _ (by decide) (by decide)
        have h4 : notEnough ≠ dietNewestBelowMsg d.diet_rating :=
          notEnough_ne_tip _ _ _ (by decide) (by decide)
        simp only [diet_tips]
        split_ifs <;> simp_all
  · cases ws with
    | nil => simp [workout_tips]
    | cons w ws =>
      cases gs with
      | nil => simp [workout_tips]
      | cons g gs => simp only [workout_tips]; split_ifs <;> simp
  · intro hw hg
    cases ws with
    | nil => exact absurd rfl hw
    | cons w ws =>
      cases gs with
      | nil => exact absurd rfl hg
      | cons g gs =>
        have h1 : notEnough ≠ workoutAvgMeetsMsg (workoutAvgOf (w :: ws)) :=
          notEnough_ne_tip _ _ _ (by decide) (by decide)
        have h2 : notEnough ≠ workoutAvgBelowMsg (workoutAvgOf (w :: ws)) :=
          notEnough_ne_tip _ _ _ (by decide) (by decide)
        have h3 : notEnough ≠ workoutNewestMeetsMsg w.workout_intensity :=
          notEnough_ne_tip _ _ _ (by decide) (by decide)
        have h4 : notEnough ≠ workoutNewestBelowMsg w.workout_intensity :=
          notEnough_ne_tip _ _ _ (by decide) (by decide)
        have h5 : notEnough ≠ workoutWeightsMsg := by decide
        have h6 : notEnough ≠ workoutCautionMsg := by decide
        have h7 : notEnough ≠ workoutBreakMsg := by decide
        simp only [workout_tips]
        split_ifs <;> simp_all
  · cases ss with
    | nil => simp [sleep_tips]
    | cons s ss =>
      cases gs with
      | nil => simp [sleep_tips]
      | cons g gs => simp only [sleep_tips]; split_ifs <;> simp
  · intro hs hg
    cases ss with
    | nil => exact absurd rfl hs
    | cons s ss =>
      cases gs with
      | nil => exact absurd rfl hg
      | cons g gs =>
        have h1 : notEnough ≠ sleepLenAvgMeetsMsg (sleepLenAvgOf (s :: ss)) :=
          notEnough_ne_tip _ _ _ (by decide) (by decide)
        have h2 : notEnough ≠ sleepLenAvgBelowMsg (sleepLenAvgOf (s :: ss)) :=
          notEnough_ne_tip _ _ _ (by decide) (by decide)
        have h3 : notEnough ≠ sleepLenNewestAboveMsg s.sleep_duration :=
          notEnough_ne_tip _ _ _ (by decide) (by decide)
        have h4 : notEnough ≠ sleepLenNewestBelowMsg s.sleep_duration :=
          notEnough_ne_tip _ _ _ (by decide) (by decide)
        have h5 : notEnough ≠ sleepQualAvgMeetsMsg (sleepQualAvgOf (s :: ss)) :=
          notEnough_ne_tip _ _ _ (by decide) (by decide)
        have h6 : notEnough ≠ sleepQualAvgBelowMsg (sleepQualAvgOf (s :: ss)) :=
          notEnough_ne_tip _ _ _ (by decide) (by decide)
        have h7 : notEnough ≠ sleepQualNewestMeetsMsg s.sleep_rating :=
          notEnough_ne_tip _ _ _ (by decide) (by decide)
        have h8 : notEnough ≠ sleepQualNewestBelowMsg s.sleep_rating :=
          notEnough_ne_tip _ _ _ (by decide) (by decide)
        have h9 : notEnough ≠ sleepScreensMsg := by decide
        simp only [sleep_tips]
        split_ifs <;> simp_all

/-- Witness for C1 at a concrete input: one diet entry and one goals
row, the sentinel does not occur among the tips. -/
theorem tips_not_enough_data_iff_witness :
    notEnough ∉ diet_tips [⟨0, "", 0, "", 0, 0⟩] [⟨0, 0, 0, 0, 0⟩] :=
  (tips_not_enough_data_iff [⟨0, "", 0, "", 0, 0⟩] [] [] [⟨0, 0, 0, 0, 0⟩]).1.2
    (by decide) (by decide)

/-- Claim C9: on every input each tip function produces at least one
tip string. -/
theorem tips_nonempty
    (ds : List DietRow) (ws : List WorkoutRow) (ss : List SleepRow) (gs : List GoalsRow) :
    diet_tips ds gs ≠ [] ∧ workout_tips ws gs ≠ [] ∧ sleep_tips ss gs ≠ [] := by
  refine ⟨?_, ?_, ?_⟩
  · cases ds with
    | nil => simp [diet_tips]
    | cons d ds =>
      cases gs with
      | nil => simp [diet_tips]
      | cons g gs => simp only [diet_tips]; split_ifs <;> simp
  · cases ws with
    | nil => simp [workout_tips]
    | cons w ws =>
      cases gs with
      | nil => simp [workout_tips]
      | cons g gs => simp only [workout_tips]; split_ifs <;> simp
  · cases ss with
    | nil => simp [sleep_tips]
    | cons s ss =>
      cases gs with
      | nil => simp [sleep_tips]
      | cons g gs => simp only [sleep_tips]; split_ifs <;> simp

/-- Witness for C9 at a concrete input: with no data at all, the tip
lists are still non-empty. -/
theorem tips_nonempty_witness : diet_tips [] [] ≠ [] :=
  (tips_nonempty [] [] [] []).1

/-- Claim C2: with non-empty entries and goals, each tip function
emits the "meets or is passing" message for the mean of its designated
numeric field iff that mean is at least the corresponding goal value
(so equality counts as meets), and otherwise emits the "below your
goal" message; for sleep this holds for both the duration and the
quality metric. -/
theorem tips_average_meets_iff
    (d : DietRow) (ds : List DietRow) (w : WorkoutRow) (ws : List WorkoutRow)
    (s : SleepRow) (ss : List SleepRow) (g : GoalsRow) (gs : List GoalsRow) :
    (dietAvgMeetsMsg (dietAvgOf (d :: ds)) ∈ diet_tips (d :: ds) (g :: gs) ↔
      dietAvgOf (d :: ds) ≥ g.diet) ∧
    (dietAvgBelowMsg (dietAvgOf (d :: ds)) ∈ diet_tips (d :: ds) (g :: gs) ↔
      ¬ dietAvgOf (d :: ds) ≥ g.diet) ∧
    (workoutAvgMeetsMsg (workoutAvgOf (w :: ws)) ∈ workout_tips (w :: ws) (g :: gs) ↔
      workoutAvgOf (w :: ws) ≥ g.intensity) ∧
    (workoutAvgBelowMsg (workoutAvgOf (w :: ws)) ∈ workout_tips (w :: ws) (g :: gs) ↔
      ¬ workoutAvgOf (w :: ws) ≥ g.intensity) ∧
    (sleepLenAvgMeetsMsg (sleepLenAvgOf (s :: ss)) ∈ sleep_tips (s :: ss) (g :: gs) ↔
      sleepLenAvgOf (s :: ss) ≥ g.sleep_len_goal) ∧
    (sleepLenAvgBelowMsg (sleepLenAvgOf (s :: ss)) ∈ sleep_tips (s :: ss) (g :: gs) ↔
      ¬ sleepLenAvgOf (s :: ss) ≥ g.sleep_len_goal) ∧
    (sleepQualAvgMeetsMsg (sleepQualAvgOf (s :: ss)) ∈ sleep_tips (s :: ss) (g :: gs) ↔
      sleepQualAvgOf (s :: ss) ≥ g.better_sleep) ∧
    (sleepQualAvgBelowMsg (sleepQualAvgOf (s :: ss)) ∈ sleep_tips (s :: ss) (g :: gs) ↔
      ¬ sleepQualAvgOf (s :: ss) ≥ g.better_sleep) := by
  refine ⟨?_, ?_, ?_, ?_, ?_, ?_, ?_, ?_⟩
  · have n1 := dAm_ne_dAb (dietAvgOf (d :: ds))
    have n2 := dAm_ne_dNa (dietAvgOf (d :: ds)) d.diet_rating
    have n3 := dAm_ne_dNb (dietAvgOf (d :: ds)) d.diet_rating
    simp only [diet_tips]; split_ifs <;> simp_all
  · have n1 := (dAm_ne_dAb (dietAvgOf (d :: ds))).symm
    have n2 := dAb_ne_dNa (dietAvgOf (d :: ds)) d.diet_rating
    have n3 := dAb_ne_dNb (dietAvgOf (d :: ds)) d.diet_rating
    simp only [diet_tips]; split_ifs <;> simp_all
  · have n1 := wAm_ne_wAb (workoutAvgOf (w :: ws))
    have n2 := wAm_ne_weights (workoutAvgOf (w :: ws))
    have n3 := wAm_ne_wNm (workoutAvgOf (w :: ws)) w.workout_intensity
    have n4 := wAm_ne_caution (workoutAvgOf (w :: ws))
    have n5 := wAm_ne_wNb (workoutAvgOf (w :: ws)) w.workout_intensity
    have n6 := wAm_ne_break (workoutAvgOf (w :: ws))
    simp only [workout_tips]; split_ifs <;> simp_all
  · have n1 := (wAm_ne_wAb (workoutAvgOf (w :: ws))).symm
    have n2 := wAb_ne_weights (workoutAvgOf (w :: ws))
    have n3 := wAb_ne_wNm (workoutAvgOf (w :: ws)) w.workout_intensity
    have n4 := wAb_ne_caution (workoutAvgOf (w :: ws))
    have n5 := wAb_ne_wNb (workoutAvgOf (w :: ws)) w.workout_intensity
    have n6 := wAb_ne_break (workoutAvgOf (w :: ws))
    simp only [workout_tips]; split_ifs <;> simp_all
  · have n1 := sLAm_ne_sLAb (sleepLenAvgOf (s :: ss))
    have n2 := sLAm_ne_sLNa (sleepLenAvgOf (s :: ss)) s.sleep_duration
    have n3 := sLAm_ne_sLNb (sleepLenAvgOf (s :: ss)) s.sleep_duration
    have n4 := sLAm_ne_sQAm (sleepLenAvgOf (s :: ss)) (sleepQualAvgOf (s :: ss))
    have n5 := sLAm_ne_sQAb (sleepLenAvgOf (s :: ss)) (sleepQualAvgOf (s :: ss))
    have n6 := sLAm_ne_screens (sleepLenAvgOf (s :: ss))
    have n7 := sLAm_ne_sQNm (sleepLenAvgOf (s :: ss)) s.sleep_rating
    have n8 := sLAm_ne_sQNb (sleepLenAvgOf (s :: ss)) s.sleep_rating
    simp only [sleep_tips]; split_ifs <;> simp_all
  · have n1 := (sLAm_ne_sLAb (sleepLenAvgOf (s :: ss))).symm
    have n2 := sLAb_ne_sLNa (sleepLenAvgOf (s :: ss)) s.sleep_duration
    have n3 := sLAb_ne_sLNb (sleepLenAvgOf (s :: ss)) s.sleep_duration
    have n4 := sLAb_ne_sQAm (sleepLenAvgOf (s :: ss)) (sleepQualAvgOf (s :: ss))
    have n5 := sLAb_ne_sQAb (sleepLenAvgOf (s :: ss)) (sleepQualAvgOf (s :: ss))
    have n6 := sLAb_ne_screens (sleepLenAvgOf (s :: ss))
    have n7 := sLAb_ne_sQNm (sleepLenAvgOf (s :: ss)) s.sleep_rating
    have n8 := sLAb_ne_sQNb (sleepLenAvgOf (s :: ss)) s.sleep_rating
    simp only [sleep_tips]; split_ifs <;> simp_all
  · have n1 := sQAm_ne_sLAm (sleepQualAvgOf (s :: ss)) (sleepLenAvgOf (s :: ss))
    have n2 := sQAm_ne_sLAb (sleepQualAvgOf (s :: ss)) (sleepLenAvgOf (s :: ss))
    have n3 := sQAm_ne_sLNa (sleepQualAvgOf (s :: ss)) s.sleep_duration
    have n4 := sQAm_ne_sLNb (sleepQualAvgOf (s :: ss)) s.sleep_duration
    have n5 := sQAm_ne_sQAb (sleepQualAvgOf (s :: ss)) (sleepQualAvgOf (s :: ss))
    have n6 := sQAm_ne_screens (sleepQualAvgOf (s :: ss))
    have n7 := sQAm_ne_sQNm (sleepQualAvgOf (s :: ss)) s.sleep_rating
    have n8 := sQAm_ne_sQNb (sleepQualAvgOf (s :: ss)) s.sleep_rating
    simp only [sleep_tips]; split_ifs <;> simp_all
  · have n1 := sQAb_ne_sLAm (sleepQualAvgOf (s :: ss)) (sleepLenAvgOf (s :: ss))
    have n2 := sQAb_ne_sLAb (sleepQualAvgOf (s :: ss)) (sleepLenAvgOf (s :: ss))
    have n3 := sQAb_ne_sLNa (sleepQualAvgOf (s :: ss)) s.sleep_duration
    have n4 := sQAb_ne_sLNb (sleepQualAvgOf (s :: ss)) s.sleep_duration
    have n5 := (sQAm_ne_sQAb (sleepQualAvgOf (s :: ss)) (sleepQualAvgOf (s :: ss))).symm
    have n6 := sQAb_ne_screens (sleepQualAvgOf (s :: ss))
    have n7 := sQAb_ne_sQNm (sleepQualAvgOf (s :: ss)) s.sleep_rating
    have n8 := sQAb_ne_sQNb (sleepQualAvgOf (s :: ss)) s.sleep_rating
    simp only [sleep_tips]; split_ifs <;> simp_all

/-- Counterexample to C3 as stated: one workout entry with newest
intensity 9 (so at least 8) and an intensity goal of 10.  The newest
intensity misses the goal, so the caution branch is never reached and
the overtraining caution does not occur in the output. -/
theorem workout_caution_counterexample :
    ((⟨0, "", 0, 0, 9, "", "", 0, 0⟩ : WorkoutRow).workout_intensity ≥ 8) ∧
    workoutCautionMsg ∉
      workout_tips [⟨0, "", 0, 0, 9, "", "", 0, 0⟩] [⟨0, 0, 0, 10, 0⟩] := by
  constructor
  · show (9 : ℚ) ≥ 8
    norm_num
  · have havg : workoutAvgOf [(⟨0, "", 0, 0, 9, "", "", 0, 0⟩ : WorkoutRow)] = 9 := by
      norm_num [workoutAvgOf]
    have hng : ¬ ((9 : ℚ) ≥ 10) := by norm_num
    have m1 := (wAb_ne_caution (9 : ℚ)).symm
    have m2 := caution_ne_weights
    have m3 := (wNb_ne_caution (9 : ℚ)).symm
    have m4 := caution_ne_break
    simp [workout_tips, havg, hng, m1, m2, m3, m4]

/-- Claim C3 (amended): with non-empty entries and goals, the
overtraining caution occurs in `workout_tips` iff the newest
intensity is at least the intensity goal AND at least 8 (the code
only emits the caution inside the newest-meets-goal branch). -/
theorem workout_caution_iff
    (w : WorkoutRow) (ws : List WorkoutRow) (g : GoalsRow) (gs : List GoalsRow) :
    workoutCautionMsg ∈ workout_tips (w :: ws) (g :: gs) ↔
      (w.workout_intensity ≥ g.intensity ∧ w.workout_intensity ≥ 8) := by
  have m1 := (wAm_ne_caution (workoutAvgOf (w :: ws))).symm
  have m2 := (wAb_ne_caution (workoutAvgOf (w :: ws))).symm
  have m3 := caution_ne_weights
  have m4 := (wNm_ne_caution w.workout_intensity).symm
  have m5 := (wNb_ne_caution w.workout_intensity).symm
  have m6 := caution_ne_break
  simp only [workout_tips]; split_ifs <;> simp_all

/-- Claim C4: for the two sleep entries (newest first) with durations
6 and 7 and qualities 3 and 4, and the goal (length 7, quality 4),
`sleep_tips` returns exactly the five expected strings. -/
theorem sleep_tips_scenario :
    sleep_tips [⟨0, 6, 1, "", 3, 0⟩, ⟨1, 7, 0, "", 4, 0⟩] [⟨0, 7, 4, 0, 0⟩] =
      ["Your Average length of sleep (6.50) is currently below your goal!",
       "Your newest length of sleep (6) is below your goal! Don\x27t let this become a trend.",
       "Your average quality of sleep (3.50) is currently below your goal!",
       "For better sleep quality, try not to use any screens for at least an hour before bed.",
       "Your most recent sleep (3) is below your goal!"] := by
  have hla : sleepLenAvgOf [⟨0, 6, 1, "", 3, 0⟩, ⟨1, 7, 0, "", 4, 0⟩] = 13 / 2 := by
    norm_num [sleepLenAvgOf]
  have hqa : sleepQualAvgOf [⟨0, 6, 1, "", 3, 0⟩, ⟨1, 7, 0, "", 4, 0⟩] = 7 / 2 := by
    norm_num [sleepQualAvgOf]
  have h1 : ¬ ((13 : ℚ) / 2 ≥ 7) := by norm_num
  have h2 : ¬ ((6 : ℚ) ≥ 7) := by norm_num
  have h3 : ¬ ((7 : ℚ) / 2 ≥ 4) := by norm_num
  have h4 : ¬ ((3 : ℚ) ≥ 4) := by norm_num
  have f1 : fmt2 (13 / 2) = "6.50" := by
    have h : round ((13 : ℚ) / 2 * 100) = 650 := by norm_num [round_eq]
    simp only [fmt2, h]; decide
  have f2 : fmt2 (7 / 2) = "3.50" := by
    have h : round ((7 : ℚ) / 2 * 100) = 350 := by norm_num [round_eq]
    simp only [fmt2, h]; decide
  have f3 : fmtQ 6 = "6" := by decide
  have f4 : fmtQ 3 = "3" := by decide
  simp only [sleep_tips, hla, hqa, h1, h2, h3, h4, if_false, sleepLenAvgBelowMsg,
    sleepLenNewestBelowMsg, sleepQualAvgBelowMsg, sleepQualNewestBelowMsg, f1, f2, f3, f4]
  decide

/-- Replacing the (unique) matching row of a table leaves the matching
rows of the result exactly `[x]`. -/
theorem filter_map_replace (t : List GoalsRow) (uid : ℕ) (x : GoalsRow)
    (hx : (x.user_detail_id == uid) = true)
    (hlen : (t.filter (fun r => r.user_detail_id == uid)).length ≤ 1)
    (hany : t.any (fun r => r.user_detail_id == uid) = true) :
    (t.map (fun r => if r.user_detail_id == uid then x else r)).filter
      (fun r => r.user_detail_id == uid) = [x] := by
  induction t with
  | nil => simp at hany
  | cons r t ih =>
    by_cases hr : (r.user_detail_id == uid) = true
    · have htail : t.filter (fun r => r.user_detail_id == uid) = [] := by
        have h1 : (r :: t.filter (fun r => r.user_detail_id == uid)).length ≤ 1 := by
          simpa [List.filter_cons, hr] using hlen
        simp only [List.length_cons] at h1
        exact List.length_eq_zero.mp (by omega)
      have hpt : ∀ a ∈ t, (if (a.user_detail_id == uid) = true then x else a) = a := by
        intro a ha
        rw [if_neg]
        intro hcontra
        have hmem : a ∈ t.filter (fun r => r.user_detail_id == uid) :=
          List.mem_filter.mpr ⟨ha, hcontra⟩
        simp [htail] at hmem
      have hmap : t.map (fun r => if r.user_detail_id == uid then x else r) = t := by
        rw [List.map_congr_left hpt]
        simp
      have e1 : (r :: t).map (fun r => if r.user_detail_id == uid then x else r)
          = x :: t.map (fun r => if r.user_detail_id == uid then x else r) := by
        rw [List.map_cons, if_pos hr]
      rw [e1, hmap, List.filter_cons, if_pos hx, htail]
    · have hrf : (r.user_detail_id == uid) = false := by simpa using hr
      have hany2 : t.any (fun r => r.user_detail_id == uid) = true := by
        rcases List.any_eq_true.mp hany with ⟨a, ha, hpa⟩
        rcases List.mem_cons.mp ha with rfl | ha2
        · exact absurd hpa hr
        · exact List.any_eq_true.mpr ⟨a, ha2, hpa⟩
      have hlen2 : (t.filter (fun r => r.user_detail_id == uid)).length ≤ 1 := by
        simpa [List.filter_cons, hrf] using hlen
      have e1 : (r :: t).map (fun r => if r.user_detail_id == uid then x else r)
          = r :: t.map (fun r => if r.user_detail_id == uid then x else r) := by
        rw [List.map_cons, if_neg hr]
      rw [e1, List.filter_cons, if_neg hr]
      exact ih hlen2 hany2

/-- One goals upsert leaves exactly the submitted row for the user,
provided the table respects the unique constraint on
`user_detail_id` (at most one row for the user). -/
theorem upsert_goal_single (table : List GoalsRow) (uid : ℕ) (sl bs it di : ℚ)
    (h : (table.filter (fun r => r.user_detail_id == uid)).length ≤ 1) :
    (upsert_goal table uid sl bs it di).filter (fun r => r.user_detail_id == uid) =
      [⟨uid, sl, bs, it, di⟩] := by
  unfold upsert_goal
  by_cases hany : table.any (fun r => r.user_detail_id == uid) = true
  · rw [if_pos hany]
    exact filter_map_replace table uid ⟨uid, sl, bs, it, di⟩ (by simp) h hany
  · rw [if_neg hany]
    have hnil : table.filter (fun r => r.user_detail_id == uid) = [] := by
      rw [List.filter_eq_nil_iff]
      intro a ha hpa
      exact hany (List.any_eq_true.mpr ⟨a, ha, hpa⟩)
    rw [List.filter_append, hnil]
    simp

/-- Claim C5: two successive goals upserts for the same user leave
exactly one stored goal row for that user, carrying the second
submission's values (the table is assumed to respect the unique
constraint on `user_detail_id` that `ON CONFLICT` relies on). -/
theorem upsert_goal_twice (table : List GoalsRow) (uid : ℕ)
    (a1 b1 c1 d1 a2 b2 c2 d2 : ℚ)
    (h : (table.filter (fun r => r.user_detail_id == uid)).length ≤ 1) :
    (upsert_goal (upsert_goal table uid a1 b1 c1 d1) uid a2 b2 c2 d2).filter
      (fun r => r.user_detail_id == uid) = [⟨uid, a2, b2, c2, d2⟩] := by
  apply upsert_goal_single
  rw [upsert_goal_single table uid a1 b1 c1 d1 h]
  simp

/-- Witness for C5 at a concrete input: the empty table, then two
upserts for user 1; the second submission's values survive. -/
theorem upsert_goal_twice_witness :
    ((([] : List GoalsRow).filter (fun r => r.user_detail_id == 1)).length ≤ 1) ∧
    (upsert_goal (upsert_goal [] 1 1 2 3 4) 1 5 6 7 8).filter
      (fun r => r.user_detail_id == 1) = [⟨1, 5, 6, 7, 8⟩] :=
  ⟨by decide, upsert_goal_twice [] 1 1 2 3 4 5 6 7 8 (by decide)⟩

/-- Claim C6: a feedback submission whose rating string does not parse
to an integer in [1,5] is not rejected: exactly one row is appended
and its rating is stored as absent. -/
theorem submit_feedback_invalid_rating (table : List FeedbackRow) (fid uid : ℕ)
    (ftype fpage msg email : Option String) (now : ℤ) (s : String)
    (h : ∀ v : ℤ, pyParseInt s = some v → ¬(1 ≤ v ∧ v ≤ 5)) :
    submit_feedback table fid uid ftype fpage msg (some s) email now =
      table ++ [⟨fid, uid, pyLower (pyStrip (ftype.getD "")), pyLower (pyStrip (fpage.getD "")),
        pyStrip (msg.getD ""), none,
        if pyStrip (email.getD "") = "" then none else some (pyStrip (email.getD "")), now⟩] := by
  have hc : coerce_rating (some s) = none := by
    show (if s = "" then none
          else match pyParseInt s with
               | none => none
               | some v => if 1 ≤ v ∧ v ≤ 5 then some v else none) = none
    by_cases hs : s = ""
    · rw [if_pos hs]
    · rw [if_neg hs]
      cases hv : pyParseInt s with
      | none => rfl
      | some v =>
        show (if 1 ≤ v ∧ v ≤ 5 then some v else none) = none
        rw [if_neg (h v hv)]
  simp [submit_feedback, hc]

/-- Witness for C6 at a concrete input: rating string `"6"` is out of
range, yet one row is inserted and its rating is `none`. -/
theorem submit_feedback_invalid_rating_witness :
    submit_feedback [] 1 1 (some "bug") (some "home") (some "hi") (some "6") none 0 =
      [⟨1, 1, "bug", "home", "hi", none, none, 0⟩] := by
  have h6 : ∀ v : ℤ, pyParseInt "6" = some v → ¬(1 ≤ v ∧ v ≤ 5) := by
    intro v hv
    have he : pyParseInt "6" = some 6 := by decide
    rw [he] at hv
    cases hv
    decide
  exact (submit_feedback_invalid_rating [] 1 1 (some "bug") (some "home") (some "hi")
    none 0 "6" h6).trans (by decide)

/-- Claim C7: after a successful registration, a second registration
with the same username reports the duplicate-username error, leaves
the table unchanged, and the username still has exactly one row. -/
theorem register_duplicate_username (table : List UserRow) (id1 id2 : ℕ)
    (username pw1 pw2 : String) (table2 : List UserRow)
    (hok : register table id1 username pw1 = (table2, none)) :
    register table2 id2 username pw2 = (table2, some "Username taken!") ∧
    (table2.filter (fun r => r.user_detail_username == username)).length = 1 := by
  unfold register at hok
  by_cases hany : table.any (fun r => r.user_detail_username == username) = true
  · rw [if_pos hany] at hok
    exact absurd (congrArg Prod.snd hok) (by simp)
  · rw [if_neg hany] at hok
    have ht2 : table2 = table ++ [⟨id1, username, pw1⟩] := (congrArg Prod.fst hok).symm
    subst ht2
    have hnil : table.filter (fun r => r.user_detail_username == username) = [] := by
      rw [List.filter_eq_nil_iff]
      intro a ha hpa
      exact hany (List.any_eq_true.mpr ⟨a, ha, hpa⟩)
    constructor
    · have hmem : (table ++ [(⟨id1, username, pw1⟩ : UserRow)]).any
          (fun r => r.user_detail_username == username) = true := by
        refine List.any_eq_true.mpr ⟨⟨id1, username, pw1⟩, ?_, ?_⟩
        · simp
        · simp
      unfold register
      rw [if_pos hmem]
    · rw [List.filter_append, hnil]
      simp

/-- Witness for C7 at a concrete input: registering `"alice"` on the
empty store succeeds; registering `"alice"` again fails and the store
still holds exactly one `"alice"` row. -/
theorem register_duplicate_username_witness :
    register [⟨1, "alice", "hashA"⟩] 2 "alice" "hashB" =
      ([⟨1, "alice", "hashA"⟩], some "Username taken!") ∧
    (([⟨1, "alice", "hashA"⟩] : List UserRow).filter
      (fun r => r.user_detail_username == "alice")).length = 1 :=
  register_duplicate_username [] 1 2 "alice" "hashA" "hashB" [⟨1, "alice", "hashA"⟩]
    (by decide)

/-- Claim C8: both read accessors return `[]` (not an error) when the
query fails, and on success `get_data` is ordered by date descending
(and consists of the user's rows), while `get_chart_data` returns
(date, value) pairs ordered by date ascending. -/
theorem get_data_failure_and_order {α : Type} (table : List (TableRow α))
    (value : α → ℚ) (uid : ℕ) :
    get_data table uid true = [] ∧
    get_chart_data table value uid true = [] ∧
    List.Sorted (fun a b : TableRow α => b.date ≤ a.date) (get_data table uid false) ∧
    List.Sorted (fun p q : ℤ × ℚ => p.1 ≤ q.1) (get_chart_data table value uid false) ∧
    (get_data table uid false).Perm (table.filter (fun r => r.user_detail_id == uid)) := by
  refine ⟨rfl, rfl, ?_, ?_, ?_⟩
  · haveI h1 : IsTotal (TableRow α) (fun a b => b.date ≤ a.date) :=
      ⟨fun a b => le_total b.date a.date⟩
    haveI h2 : IsTrans (TableRow α) (fun a b => b.date ≤ a.date) :=
      ⟨fun a b c hab hbc => le_trans hbc hab⟩
    show List.Sorted (fun a b : TableRow α => b.date ≤ a.date)
      (List.insertionSort (fun a b : TableRow α => b.date ≤ a.date)
        (table.filter (fun r => r.user_detail_id == uid)))
    exact List.sorted_insertionSort _ _
  · haveI h1 : IsTotal (TableRow α) (fun a b => a.date ≤ b.date) :=
      ⟨fun a b => le_total a.date b.date⟩
    haveI h2 : IsTrans (TableRow α) (fun a b => a.date ≤ b.date) :=
      ⟨fun a b c hab hbc => le_trans hab hbc⟩
    have hs := List.sorted_insertionSort (fun a b : TableRow α => a.date ≤ b.date)
      (table.filter (fun r => r.user_detail_id == uid))
    show List.Sorted (fun p q : ℤ × ℚ => p.1 ≤ q.1)
      ((List.insertionSort (fun a b : TableRow α => a.date ≤ b.date)
        (table.filter (fun r => r.user_detail_id == uid))).map
          (fun r => (r.date, value r.payload)))
    exact List.Pairwise.map _ (fun a b hab => hab) hs
  · show (List.insertionSort (fun a b : TableRow α => b.date ≤ a.date)
      (table.filter (fun r => r.user_detail_id == uid))).Perm
        (table.filter (fun r => r.user_detail_id == uid))
    exact List.perm_insertionSort _ _

/-- Claim C10: every row the feedback listing returns is the view of a
stored row with its rating coalesced through `Option.getD 0`, and a
row stored with an absent rating is listed identically to the same
row stored with rating 0. -/
theorem feedback_listing_coalesces (table : List FeedbackRow) (uid lim : ℕ) :
    (∀ v ∈ get_feedback_for_user table uid lim,
      ∃ r ∈ table, v = feedbackView r ∧ v.feedback_rating = r.feedback_rating.getD 0) ∧
    (∀ r : FeedbackRow, r.feedback_rating = none →
      feedbackView r = feedbackView ⟨r.feedback_id, r.user_detail_id, r.feedback_type,
        r.feedback_page, r.feedback_message, some 0, r.contact_email, r.created_at⟩) := by
  constructor
  · intro v hv
    unfold get_feedback_for_user at hv
    have hv2 := List.mem_of_mem_take hv
    rcases List.mem_map.mp hv2 with ⟨r, hr, rfl⟩
    have hr2 : r ∈ table.filter (fun r => r.user_detail_id == uid) :=
      (List.perm_insertionSort _ _).subset hr
    exact ⟨r, List.mem_of_mem_filter hr2, rfl, rfl⟩
  · intro r hr
    simp [feedbackView, hr]

/-- Witness for C10 at a concrete input: a row stored with rating
`none` is listed the same as the row stored with rating `0`. -/
theorem feedback_listing_coalesces_witness :
    feedbackView ⟨1, 1, "bug", "home", "m", none, none, 0⟩ =
      feedbackView ⟨1, 1, "bug", "home", "m", some 0, none, 0⟩ :=
  (feedback_listing_coalesces [] 1 20).2 ⟨1, 1, "bug", "home", "m", none, none, 0⟩ rfl
